import Mathlib

/-!
Exception catchpoints (`gdb/break-catch-throw.c`) and the NaCl address helpers
(`gdb/nacl-tdep.c`).

A shallow embedding of the two C files.  C strings (`char *`) are lists of
characters with the terminating NUL left implicit; a nullable `char *` is an
`Option`.  C `int`s are `Int`, `CORE_ADDR` is a natural number below `2 ^ 64`.
Calls into the rest of gdb (`create_breakpoint`, `warning`, `error`, the
`ui_out_*` family) are recorded in explicit state.
-/

namespace BreakCatchThrow

/-! ## libc helpers used by the file -/

/-- C `strstr (haystack, needle)`: the suffix of `haystack` that starts at the first
occurrence of `needle`, or `none` (NULL) when there is none. -/
def strstr : List Char → List Char → Option (List Char)
  | [], needle => if needle.isPrefixOf [] then some [] else none
  | c :: hay, needle =>
    if needle.isPrefixOf (c :: hay) then some (c :: hay) else strstr hay needle

/-- C `isspace` in the "C" locale: space, and the control characters 9 to 13 (tab, newline,
vertical tab, form feed, carriage return). -/
def isspace (c : Char) : Bool :=
  c == ' ' || c == Char.ofNat 9 || c == Char.ofNat 10 || c == Char.ofNat 11 ||
    c == Char.ofNat 12 || c == Char.ofNat 13

/-! ## Data model -/

/-- The `enum exception_event_kind` of lines 34-39. -/
inductive exception_event_kind
  | EX_EVENT_THROW
  | EX_EVENT_RETHROW
  | EX_EVENT_CATCH
  deriving DecidableEq, Repr

open exception_event_kind

/-- The `enum bpdisp` of `breakpoint.h`. -/
inductive bpdisp
  | disp_del
  | disp_del_at_next_stop
  | disp_disable
  | disp_donttouch
  deriving DecidableEq, Repr

/-- The fields of `struct bp_location` the file reads. -/
structure bp_location where
  gdbarch : Nat
  address : Nat
  shlib_disabled : Bool
  deriving DecidableEq, Repr

/-- The fields of `struct breakpoint` the file reads. -/
structure breakpoint where
  number : Int
  disposition : bpdisp
  addr_string : List Char
  loc : Option bp_location
  thread : Int
  deriving DecidableEq, Repr

/-! ## The classifier (lines 44-53) -/

/-- The function `classify_exception_breakpoint`. -/
def classify_exception_breakpoint (b : breakpoint) : exception_event_kind :=
  if (strstr b.addr_string "catch".toList).isSome then EX_EVENT_CATCH
  else if (strstr b.addr_string "rethrow".toList).isSome then EX_EVENT_RETHROW
  else EX_EVENT_THROW

/-- The reference classifier, written from the specification: Catch when the address
string contains "catch", Rethrow when it contains "rethrow" but not "catch", Throw for
every other string.  "Contains" is the infix relation on character lists. -/
def classify_reference (s : List Char) : exception_event_kind :=
  if "catch".toList <:+: s then EX_EVENT_CATCH
  else if "rethrow".toList <:+: s then EX_EVENT_RETHROW
  else EX_EVENT_THROW

/-! ## The output abstraction

Every call the file makes on `current_uiout` (and the `annotate_*` calls) is recorded, in
order, as one `ui_event`. -/

/-- One call into the output layer, with its arguments. -/
inductive ui_event
  | annotate_catchpoint (num : Int)
  | annotate_field (num : Int)
  | ui_out_text (s : String)
  | ui_out_field_int (fldname : String) (value : Int)
  | ui_out_field_string (fldname : String) (value : String)
  | ui_out_field_core_addr (fldname : String) (gdbarch : Nat) (address : Nat)
  deriving DecidableEq, Repr

/-- The tag of a `ui_out_field_*` call; `none` for text and annotations. -/
def ui_event.fldname? : ui_event → Option String
  | .ui_out_field_int n _ => some n
  | .ui_out_field_string n _ => some n
  | .ui_out_field_core_addr n _ _ => some n
  | _ => none

/-- The tags of all tagged fields in a trace, in emission order. -/
def field_names (es : List ui_event) : List String :=
  es.filterMap ui_event.fldname?

/-- The state of `current_uiout` the file can observe (`ui_out_is_mi_like_p`), together
with the two text tables of gdb it reads: `async_reason_lookup (EXEC_ASYNC_BREAKPOINT_HIT)`
and `bpdisp_text`.  Both tables live outside the file and are left arbitrary. -/
structure ui_out where
  is_mi_like_p : Bool
  async_reason_breakpoint_hit : String
  bpdisp_text : bpdisp → String

/-- The `enum print_stop_action` of `breakpoint.h`. -/
inductive print_stop_action
  | PRINT_UNKNOWN
  | PRINT_SRC_AND_LOC
  | PRINT_SRC_ONLY
  | PRINT_NOTHING
  deriving DecidableEq, Repr

/-- The part of `bpstat` the file reads. -/
structure bpstats where
  breakpoint_at : breakpoint

/-- The function `print_it_exception_catchpoint`: the calls made on `uiout`, and the
returned action. -/
def print_it_exception_catchpoint (uiout : ui_out) (bs : bpstats) :
    print_stop_action × List ui_event :=
  let b := bs.breakpoint_at
  let kind := classify_exception_breakpoint b
  let out := [ui_event.annotate_catchpoint b.number]
  let bp_temp := b.disposition == bpdisp.disp_del
  let out := out ++ [ui_event.ui_out_text (if bp_temp then "Temporary catchpoint " else "Catchpoint ")]
  let out := if !uiout.is_mi_like_p then out ++ [ui_event.ui_out_field_int "bkptno" b.number] else out
  let out := out ++ [ui_event.ui_out_text
    (if kind = EX_EVENT_THROW then " (exception thrown), "
     else if kind = EX_EVENT_CATCH then " (exception caught), "
     else " (exception rethrown), ")]
  let out := if uiout.is_mi_like_p then
      out ++ [ui_event.ui_out_field_string "reason" uiout.async_reason_breakpoint_hit,
              ui_event.ui_out_field_string "disp" (uiout.bpdisp_text b.disposition),
              ui_event.ui_out_field_int "bkptno" b.number]
    else out
  (print_stop_action.PRINT_SRC_AND_LOC, out)

/-- The function `print_mention_exception_catchpoint`. -/
def print_mention_exception_catchpoint (b : breakpoint) : List ui_event :=
  let kind := classify_exception_breakpoint b
  let bp_temp := b.disposition == bpdisp.disp_del
  [ui_event.ui_out_text (if bp_temp then "Temporary catchpoint " else "Catchpoint "),
   ui_event.ui_out_field_int "bkptno" b.number,
   ui_event.ui_out_text
     (if kind = EX_EVENT_THROW then " (throw)"
      else if kind = EX_EVENT_CATCH then " (catch)"
      else " (rethrow)")]

/-- The function `print_recreate_exception_catchpoint`: the text written to `fp`.
`print_recreate_thread` (in `breakpoint.c`) is passed in as the text it writes for `b`. -/
def print_recreate_exception_catchpoint (print_recreate_thread : breakpoint → List Char)
    (b : breakpoint) : List Char :=
  let kind := classify_exception_breakpoint b
  let bp_temp := b.disposition == bpdisp.disp_del
  let fp := if bp_temp then "tcatch ".toList else "catch ".toList
  let fp := fp ++
    (match kind with
     | EX_EVENT_THROW => "throw".toList
     | EX_EVENT_CATCH => "catch".toList
     | EX_EVENT_RETHROW => "rethrow".toList)
  fp ++ print_recreate_thread b

/-! ## Requests to the generic breakpoint manager -/

/-- The `enum auto_boolean` of gdb. -/
inductive auto_boolean
  | AUTO_BOOLEAN_TRUE
  | AUTO_BOOLEAN_FALSE
  | AUTO_BOOLEAN_AUTO
  deriving DecidableEq, Repr

/-- The one `enum bptype` value the file uses, and its neighbours. -/
inductive bptype
  | bp_none
  | bp_breakpoint
  | bp_hardware_breakpoint
  deriving DecidableEq, Repr

/-- Which operations table a request binds. -/
inductive breakpoint_ops_ref
  | bkpt_breakpoint_ops
  | gnu_v3_exception_catchpoint_ops
  deriving DecidableEq, Repr

/-- The fifteen arguments of one `create_breakpoint` call, in the order of its
parameter list. -/
structure create_breakpoint_args where
  gdbarch : Nat
  arg : List Char
  cond_string : Option (List Char)
  thread : Int
  extra_string : Option (List Char)
  parse_condition_and_thread : Int
  tempflag : Int
  type_wanted : bptype
  ignore_count : Int
  pending_break_support : auto_boolean
  ops : breakpoint_ops_ref
  from_tty : Int
  enabled : Int
  internal : Int
  flags : Int
  deriving DecidableEq, Repr

/-- What the file can change or read in the rest of gdb: the architecture returned by
`get_current_arch`, the `create_breakpoint` calls made so far (oldest first) and the
warnings emitted so far. -/
structure gdb_state where
  current_arch : Nat
  created : List create_breakpoint_args
  warnings : List String
  deriving DecidableEq, Repr

/-- How a command ends: normally, or through `error (...)` with its message. -/
inductive cmd_result
  | done
  | error (msg : String)
  deriving DecidableEq, Repr

/-- Modelled from the spec: `create_breakpoint` of `breakpoint.c` is not under src/.  The
generic manager takes the request (`create-breakpoint(arch, symbol-name, condition, ...)`)
and owns everything after it; the call is recorded with its arguments. -/
def create_breakpoint (args : create_breakpoint_args) (st : gdb_state) : gdb_state :=
  { st with created := st.created ++ [args] }

/-- Modelled from the spec: `warning` of `utils.c` is not under src/; the message is
recorded and the command goes on. -/
def warning (msg : String) (st : gdb_state) : gdb_state :=
  { st with warnings := st.warnings ++ [msg] }

/-- Modelled from the spec: the catchpoint the generic manager builds from a request, as
far as the file can see it.  The address string is the symbol of the request, the
disposition is delete-after-hit exactly when `tempflag` is set, the location is pending
and `number` is whatever identifier the manager assigns. -/
def breakpoint_of_request (number : Int) (r : create_breakpoint_args) : breakpoint :=
  { number := number
    disposition := if r.tempflag ≠ 0 then bpdisp.disp_del else bpdisp.disp_donttouch
    addr_string := r.arg
    loc := none
    thread := r.thread }

/-! ## Argument parsing helpers -/

/-- The character a `char *` points at: the head of the list, NUL at its end. -/
def deref (s : List Char) : Char :=
  match s with
  | [] => Char.ofNat 0
  | c :: _ => c

/-- Modelled from the spec: `skip_spaces` of `cli/cli-utils.c` is not under src/.  It
"trims leading whitespace": the pointer advances while it points at an `isspace`
character. -/
def skip_spaces : List Char → List Char
  | [] => []
  | c :: s => if isspace c then skip_spaces s else c :: s

/-- Modelled from the spec: `ep_parse_optional_if_clause` of `breakpoint.c` is not under
src/.  It "extracts an optional trailing condition clause introduced by a recognized
condition keyword": when `*arg` starts with `if` followed by a whitespace character, the
condition is the text after `if` and the whitespace following it, and `*arg` is moved to
the end of the string; otherwise the result is NULL and `*arg` is untouched.  Returns the
condition and the new `*arg`. -/
def ep_parse_optional_if_clause (arg : List Char) : Option (List Char) × List Char :=
  match arg with
  | 'i' :: 'f' :: c :: rest =>
    if isspace c then (some (skip_spaces (c :: rest)), []) else (none, arg)
  | _ => (none, arg)

/-! ## The trigger resolver and the command handlers (lines 174-262) -/

/-- The function `handle_gnu_v3_exceptions`: its return value and the state after it. -/
def handle_gnu_v3_exceptions (tempflag : Int) (cond_string : Option (List Char))
    (ex_event : exception_event_kind) (from_tty : Int) (st : gdb_state) :
    Int × gdb_state :=
  let trigger_func_name :=
    if ex_event = EX_EVENT_CATCH then "__cxa_begin_catch".toList
    else if ex_event = EX_EVENT_RETHROW then "__cxa_rethrow".toList
    else "__cxa_throw".toList
  let st := create_breakpoint
    { gdbarch := st.current_arch
      arg := trigger_func_name
      cond_string := cond_string
      thread := -1
      extra_string := none
      parse_condition_and_thread := 0
      tempflag := tempflag
      type_wanted := bptype.bp_breakpoint
      ignore_count := 0
      pending_break_support := auto_boolean.AUTO_BOOLEAN_TRUE
      ops := breakpoint_ops_ref.gnu_v3_exception_catchpoint_ops
      from_tty := from_tty
      enabled := 1
      internal := 0
      flags := 0 } st
  (1, st)

/-- The function `catch_exception_command_1`.  `arg` is `none` for a NULL pointer. -/
def catch_exception_command_1 (ex_event : exception_event_kind) (arg : Option (List Char))
    (tempflag : Int) (from_tty : Int) (st : gdb_state) : cmd_result × gdb_state :=
  let arg := match arg with
    | none => []
    | some a => a
  let arg := skip_spaces arg
  let (cond_string, arg) := ep_parse_optional_if_clause arg
  if deref arg ≠ Char.ofNat 0 && !isspace (deref arg) then
    (cmd_result.error "Junk at end of arguments.", st)
  else if ex_event ≠ EX_EVENT_THROW && ex_event ≠ EX_EVENT_CATCH
      && ex_event ≠ EX_EVENT_RETHROW then
    (cmd_result.error "Unsupported or unknown exception event; cannot catch it", st)
  else
    let (r, st) := handle_gnu_v3_exceptions tempflag cond_string ex_event from_tty st
    if r ≠ 0 then (cmd_result.done, st)
    else (cmd_result.done, warning "Unsupported with this platform/compiler combination." st)

/-- Modelled from the spec: the two context tags of `breakpoint.h` (not under src/), one
per registered alias; they are the pointers 0 and 1. -/
def CATCH_PERMANENT : Nat := 0

/-- Modelled from the spec: see `CATCH_PERMANENT`. -/
def CATCH_TEMPORARY : Nat := 1

/-- The part of `struct cmd_list_element` the handlers read. -/
structure cmd_list_element where
  name : List Char
  context : Nat
  deriving DecidableEq, Repr

/-- The accessor `get_cmd_context`. -/
def get_cmd_context (command : cmd_list_element) : Nat := command.context

/-- The function `catch_catch_command`. -/
def catch_catch_command (arg : Option (List Char)) (from_tty : Int)
    (command : cmd_list_element) (st : gdb_state) : cmd_result × gdb_state :=
  let tempflag : Int := if get_cmd_context command = CATCH_TEMPORARY then 1 else 0
  catch_exception_command_1 EX_EVENT_CATCH arg tempflag from_tty st

/-- The function `catch_throw_command`. -/
def catch_throw_command (arg : Option (List Char)) (from_tty : Int)
    (command : cmd_list_element) (st : gdb_state) : cmd_result × gdb_state :=
  let tempflag : Int := if get_cmd_context command = CATCH_TEMPORARY then 1 else 0
  catch_exception_command_1 EX_EVENT_THROW arg tempflag from_tty st

/-- The function `catch_rethrow_command`. -/
def catch_rethrow_command (arg : Option (List Char)) (from_tty : Int)
    (command : cmd_list_element) (st : gdb_state) : cmd_result × gdb_state :=
  let tempflag : Int := if get_cmd_context command = CATCH_TEMPORARY then 1 else 0
  catch_exception_command_1 EX_EVENT_RETHROW arg tempflag from_tty st

/-! ## Registration (lines 284-308) and command dispatch -/

/-- The type of a command function (`sfunc`). -/
abbrev cmd_sfunc :=
  Option (List Char) → Int → cmd_list_element → gdb_state → cmd_result × gdb_state

/-- One entry of a command list: the element and the function set on it. -/
structure registered_cmd where
  element : cmd_list_element
  doc : String
  sfunc : cmd_sfunc

/-- The two sub-command lists behind the `catch` and `tcatch` prefix commands. -/
structure cmd_lists where
  catch_cmdlist : List registered_cmd
  tcatch_cmdlist : List registered_cmd

/-- Modelled from the spec: `add_catch_command` of `breakpoint.c` is not under src/.  It
registers the sub-command under both aliases ("`catch ...` and temporary variants
`tcatch ...`"), each entry carrying the context given for its alias. -/
def add_catch_command (name : String) (docstring : String) (sfunc : cmd_sfunc)
    (user_data_catch user_data_tcatch : Nat) (l : cmd_lists) : cmd_lists :=
  { catch_cmdlist := l.catch_cmdlist ++ [⟨⟨name.toList, user_data_catch⟩, docstring, sfunc⟩]
    tcatch_cmdlist := l.tcatch_cmdlist ++ [⟨⟨name.toList, user_data_tcatch⟩, docstring, sfunc⟩] }

/-- The function `_initialize_break_catch_throw`, as far as it registers commands. -/
def _initialize_break_catch_throw (l : cmd_lists) : cmd_lists :=
  let l := add_catch_command "catch" "Catch an exception, when caught."
    catch_catch_command CATCH_PERMANENT CATCH_TEMPORARY l
  let l := add_catch_command "throw" "Catch an exception, when thrown."
    catch_throw_command CATCH_PERMANENT CATCH_TEMPORARY l
  let l := add_catch_command "rethrow" "Catch an exception, when rethrown."
    catch_rethrow_command CATCH_PERMANENT CATCH_TEMPORARY l
  l

/-- The leading word of a command line (up to the first whitespace character) and what
follows it. -/
def split_word : List Char → List Char × List Char
  | [] => ([], [])
  | c :: s =>
    if isspace c then ([], c :: s)
    else ((c :: (split_word s).1), (split_word s).2)

/-- The entry of a command list with the given name. -/
def lookup_cmd (name : List Char) : List registered_cmd → Option registered_cmd
  | [] => none
  | c :: cs => if c.element.name = name then some c else lookup_cmd name cs

/-- Modelled from the spec: the command-line front end is not under src/.  The surface is
`catch KIND [if COND]` and `tcatch KIND [if COND]`: the first word selects the alias and
with it the sub-command list, the second word selects the entry, and the entry's function
is called with the rest of the line (NULL when nothing is left) and the entry itself. -/
def execute_command (l : cmd_lists) (line : List Char) (from_tty : Int) (st : gdb_state) :
    cmd_result × gdb_state :=
  let w := split_word (skip_spaces line)
  let list? :=
    if w.1 = "catch".toList then some l.catch_cmdlist
    else if w.1 = "tcatch".toList then some l.tcatch_cmdlist
    else none
  match list? with
  | none => (cmd_result.error "Undefined command.", st)
  | some cmds =>
    let sub := split_word (skip_spaces w.2)
    match lookup_cmd sub.1 cmds with
    | none => (cmd_result.error "Undefined catch command.", st)
    | some c =>
      let rest := skip_spaces sub.2
      c.sfunc (if rest = [] then none else some rest) from_tty c.element st

/-- The handler registered for an event kind. -/
def handler_of_kind : exception_event_kind → cmd_sfunc
  | EX_EVENT_CATCH => catch_catch_command
  | EX_EVENT_THROW => catch_throw_command
  | EX_EVENT_RETHROW => catch_rethrow_command

/-- The surface keyword of an event kind. -/
def keyword_of_kind : exception_event_kind → List Char
  | EX_EVENT_CATCH => "catch".toList
  | EX_EVENT_THROW => "throw".toList
  | EX_EVENT_RETHROW => "rethrow".toList

/-- The test of line 219 on an argument, negated: after the leading whitespace and the
optional `if` clause nothing is left that would raise "Junk at end of arguments.". -/
def well_formed_args (arg : Option (List Char)) : Bool :=
  let rest := (ep_parse_optional_if_clause (skip_spaces (arg.getD []))).2
  !(deref rest ≠ Char.ofNat 0 && !isspace (deref rest))

/-- The condition string the handlers pass on for an argument. -/
def parsed_condition (arg : Option (List Char)) : Option (List Char) :=
  (ep_parse_optional_if_clause (skip_spaces (arg.getD []))).1

/-- The argument list of the `create_breakpoint` call of lines 190-199, for a given
architecture, trigger symbol, condition, `tempflag` and `from_tty`. -/
def exception_request (gdbarch : Nat) (trigger_func_name : List Char)
    (cond_string : Option (List Char)) (tempflag from_tty : Int) : create_breakpoint_args :=
  { gdbarch := gdbarch
    arg := trigger_func_name
    cond_string := cond_string
    thread := -1
    extra_string := none
    parse_condition_and_thread := 0
    tempflag := tempflag
    type_wanted := bptype.bp_breakpoint
    ignore_count := 0
    pending_break_support := auto_boolean.AUTO_BOOLEAN_TRUE
    ops := breakpoint_ops_ref.gnu_v3_exception_catchpoint_ops
    from_tty := from_tty
    enabled := 1
    internal := 0
    flags := 0 }

/-- The trigger symbol chosen at lines 180-188. -/
def trigger_symbol : exception_event_kind → List Char
  | EX_EVENT_CATCH => "__cxa_begin_catch".toList
  | EX_EVENT_RETHROW => "__cxa_rethrow".toList
  | EX_EVENT_THROW => "__cxa_throw".toList

/-- The catchpoint built from the most recent `create_breakpoint` request. -/
def last_created (number : Int) (st : gdb_state) : Option breakpoint :=
  (st.created.getLast?).map (breakpoint_of_request number)

end BreakCatchThrow

/-! ## `gdb/nacl-tdep.c` -/

namespace NaclTdep

/-- The function `nacl_pointer_to_address` (lines 51-61).  `ZEROVM_BASE` is a compile-time
constant defined outside the file, of `CORE_ADDR` width; `addr` is the value returned by
`unsigned_pointer_to_address (gdbarch, type, buf)`.  `(unsigned) addr` keeps the low 32
bits, and the sum is taken in 64-bit unsigned arithmetic. -/
def nacl_pointer_to_address (ZEROVM_BASE : Nat) (addr : Nat) : Nat :=
  if addr ≠ 0 then (ZEROVM_BASE + addr % 2 ^ 32) % 2 ^ 64 else addr

/-- The function `nacl_sandbox_address_p` (lines 69-77). -/
def nacl_sandbox_address_p (ZEROVM_BASE : Nat) (addr : Nat) : Int :=
  if addr ≥ ZEROVM_BASE ∧ addr < (ZEROVM_BASE + 4 * 1024 * 1024 * 1024) % 2 ^ 64 then 1
  else 0

end NaclTdep

/-! # Theorems -/

namespace BreakCatchThrow

open exception_event_kind

/-- The search `strstr` finds something exactly when the needle is an infix of the
haystack. -/
theorem strstr_isSome_iff (hay needle : List Char) :
    (strstr hay needle).isSome = true ↔ needle <:+: hay := by
  induction hay with
  | nil =>
    unfold strstr
    by_cases h : needle.isPrefixOf [] = true
    · simp only [h, if_true, Option.isSome_some, true_iff]
      exact (List.isPrefixOf_iff_prefix.mp h).isInfix
    · rw [if_neg h]
      constructor
      · intro h0; cases h0
      · intro hin
        exact absurd (List.isPrefixOf_iff_prefix.mpr
          (by rw [List.eq_nil_of_infix_nil hin])) h
  | cons c hay ih =>
    unfold strstr
    by_cases h : needle.isPrefixOf (c :: hay) = true
    · simp only [h, if_true, Option.isSome_some, true_iff]
      exact (List.isPrefixOf_iff_prefix.mp h).isInfix
    · rw [if_neg h, ih, List.infix_cons_iff]
      constructor
      · intro hin; exact Or.inr hin
      · rintro (hp | hin)
        · exact absurd (List.isPrefixOf_iff_prefix.mpr hp) h
        · exact hin

/-- C1: for every catchpoint, `classify_exception_breakpoint` agrees with the reference
classifier on its address string: Catch when the string contains "catch" (whatever else
it contains), Rethrow when it contains "rethrow" but not "catch", Throw for every other
string. -/
theorem classify_exception_breakpoint_eq_reference (b : breakpoint) :
    classify_exception_breakpoint b = classify_reference b.addr_string ∧
    ("catch".toList <:+: b.addr_string ↔
      classify_exception_breakpoint b = EX_EVENT_CATCH) ∧
    ("rethrow".toList <:+: b.addr_string ∧ ¬ "catch".toList <:+: b.addr_string ↔
      classify_exception_breakpoint b = EX_EVENT_RETHROW) ∧
    (¬ "rethrow".toList <:+: b.addr_string ∧ ¬ "catch".toList <:+: b.addr_string ↔
      classify_exception_breakpoint b = EX_EVENT_THROW) := by
  unfold classify_exception_breakpoint classify_reference
  simp only [strstr_isSome_iff]
  split_ifs with hc hr <;> simp_all

/-- The resolver always makes one request for the kind's symbol and returns 1. -/
theorem handle_gnu_v3_exceptions_eq (tempflag : Int) (cond_string : Option (List Char))
    (ex_event : exception_event_kind) (from_tty : Int) (st : gdb_state) :
    handle_gnu_v3_exceptions tempflag cond_string ex_event from_tty st =
      (1, { st with created := st.created ++
              [exception_request st.current_arch (trigger_symbol ex_event) cond_string
                tempflag from_tty] }) := by
  cases ex_event <;> rfl

/-- On an argument that passes the test of line 219 the command ends normally after one
request and no warning. -/
theorem catch_exception_command_1_done (ex_event : exception_event_kind)
    (arg : Option (List Char)) (tempflag from_tty : Int) (st : gdb_state)
    (h : well_formed_args arg = true) :
    catch_exception_command_1 ex_event arg tempflag from_tty st =
      (cmd_result.done, { st with created := st.created ++
        [exception_request st.current_arch (trigger_symbol ex_event) (parsed_condition arg)
          tempflag from_tty] }) := by
  cases ex_event <;> cases arg <;>
    simp_all [well_formed_args, catch_exception_command_1, handle_gnu_v3_exceptions_eq,
      parsed_condition] <;>
    tauto

/-- On an argument that fails the test of line 219 the command raises the junk error and
leaves the state as it was. -/
theorem catch_exception_command_1_junk (ex_event : exception_event_kind)
    (arg : Option (List Char)) (tempflag from_tty : Int) (st : gdb_state)
    (h : well_formed_args arg = false) :
    catch_exception_command_1 ex_event arg tempflag from_tty st =
      (cmd_result.error "Junk at end of arguments.", st) := by
  cases arg <;> simp_all [well_formed_args, catch_exception_command_1]

/-- Leading whitespace is skipped, and skipping stops at a non-whitespace character. -/
theorem skip_spaces_append (ws body : List Char) (hws : ∀ x ∈ ws, isspace x = true)
    (hbody : ∀ c tl, body = c :: tl → isspace c = false) :
    skip_spaces (ws ++ body) = body := by
  induction ws with
  | nil =>
    cases body with
    | nil => rfl
    | cons c tl => simp [skip_spaces, hbody c tl rfl]
  | cons w ws ih =>
    have hw : isspace w = true := hws w (List.mem_cons_self _ _)
    simp only [List.cons_append, skip_spaces, hw, if_true]
    exact ih (fun x hx => hws x (List.mem_cons_of_mem _ hx))

/-- Without a leading `if` and whitespace there is no condition and the pointer stays. -/
theorem ep_parse_optional_if_clause_none (body : List Char)
    (h : ¬ ∃ sp tl, body = 'i' :: 'f' :: sp :: tl ∧ isspace sp = true) :
    ep_parse_optional_if_clause body = (none, body) := by
  unfold ep_parse_optional_if_clause
  split
  · next c rest =>
    by_cases hc : isspace c = true
    · exact absurd ⟨c, rest, rfl, hc⟩ h
    · simp [hc]
  · rfl

/-- C3: for every argument that passes the junk test, whatever the command's context,
`from_tty` and the state, each of the three handlers makes exactly one `create_breakpoint`
request and ends normally; the requested symbol is "__cxa_begin_catch" for
`catch_catch_command`, "__cxa_rethrow" for `catch_rethrow_command` and "__cxa_throw" for
`catch_throw_command`; the request allows a pending location and binds the exception
catchpoint operations table. -/
theorem catch_commands_request_fixed_symbol (arg : Option (List Char)) (from_tty : Int)
    (command : cmd_list_element) (st : gdb_state) (h : well_formed_args arg = true) :
    (∃ req, catch_catch_command arg from_tty command st =
        (cmd_result.done, { st with created := st.created ++ [req] }) ∧
      req.arg = "__cxa_begin_catch".toList ∧
      req.pending_break_support = auto_boolean.AUTO_BOOLEAN_TRUE ∧
      req.ops = breakpoint_ops_ref.gnu_v3_exception_catchpoint_ops ∧
      req.cond_string = parsed_condition arg) ∧
    (∃ req, catch_rethrow_command arg from_tty command st =
        (cmd_result.done, { st with created := st.created ++ [req] }) ∧
      req.arg = "__cxa_rethrow".toList ∧
      req.pending_break_support = auto_boolean.AUTO_BOOLEAN_TRUE ∧
      req.ops = breakpoint_ops_ref.gnu_v3_exception_catchpoint_ops ∧
      req.cond_string = parsed_condition arg) ∧
    (∃ req, catch_throw_command arg from_tty command st =
        (cmd_result.done, { st with created := st.created ++ [req] }) ∧
      req.arg = "__cxa_throw".toList ∧
      req.pending_break_support = auto_boolean.AUTO_BOOLEAN_TRUE ∧
      req.ops = breakpoint_ops_ref.gnu_v3_exception_catchpoint_ops ∧
      req.cond_string = parsed_condition arg) := by
  refine ⟨⟨exception_request st.current_arch (trigger_symbol EX_EVENT_CATCH)
      (parsed_condition arg) (if get_cmd_context command = CATCH_TEMPORARY then 1 else 0)
      from_tty, ?_, rfl, rfl, rfl, rfl⟩,
    ⟨exception_request st.current_arch (trigger_symbol EX_EVENT_RETHROW)
      (parsed_condition arg) (if get_cmd_context command = CATCH_TEMPORARY then 1 else 0)
      from_tty, ?_, rfl, rfl, rfl, rfl⟩,
    ⟨exception_request st.current_arch (trigger_symbol EX_EVENT_THROW)
      (parsed_condition arg) (if get_cmd_context command = CATCH_TEMPORARY then 1 else 0)
      from_tty, ?_, rfl, rfl, rfl, rfl⟩⟩
  · exact catch_exception_command_1_done EX_EVENT_CATCH arg _ from_tty st h
  · exact catch_exception_command_1_done EX_EVENT_RETHROW arg _ from_tty st h
  · exact catch_exception_command_1_done EX_EVENT_THROW arg _ from_tty st h

/-- Witness for C3: the argument "if x > 3" under the temporary alias. -/
theorem catch_commands_request_fixed_symbol_witness :
    well_formed_args (some "if x > 3".toList) = true ∧
    ∃ req, catch_throw_command (some "if x > 3".toList) 1 ⟨"throw".toList, CATCH_TEMPORARY⟩
        ⟨0, [], []⟩ = (cmd_result.done, ⟨0, [] ++ [req], []⟩) ∧
      req.arg = "__cxa_throw".toList ∧
      req.pending_break_support = auto_boolean.AUTO_BOOLEAN_TRUE ∧
      req.ops = breakpoint_ops_ref.gnu_v3_exception_catchpoint_ops ∧
      req.cond_string = parsed_condition (some "if x > 3".toList) :=
  ⟨by decide,
   (catch_commands_request_fixed_symbol (some "if x > 3".toList) 1
      ⟨"throw".toList, CATCH_TEMPORARY⟩ ⟨0, [], []⟩ (by decide)).2.2⟩

/-- C4: `catch_exception_command_1` raises "Junk at end of arguments." and leaves the
state untouched (no `create_breakpoint` call, no warning) for every argument that, after
its leading whitespace, starts with a non-whitespace character and is not an `if` clause;
for a NULL or all-whitespace argument it ends normally with one request whose condition is
NULL; for leading whitespace, `if`, at least one whitespace character and then a text
that does not start with whitespace, it ends normally with one request whose condition
is that text, verbatim. -/
theorem junk_error_or_verbatim_condition (ex_event : exception_event_kind)
    (tempflag from_tty : Int) (st : gdb_state) :
    (∀ ws c tl, (∀ x ∈ ws, isspace x = true) → isspace c = false → c ≠ Char.ofNat 0 →
      (¬ ∃ sp tl2, c :: tl = 'i' :: 'f' :: sp :: tl2 ∧ isspace sp = true) →
      catch_exception_command_1 ex_event (some (ws ++ c :: tl)) tempflag from_tty st =
        (cmd_result.error "Junk at end of arguments.", st)) ∧
    catch_exception_command_1 ex_event none tempflag from_tty st =
      (cmd_result.done, { st with created := st.created ++
        [exception_request st.current_arch (trigger_symbol ex_event) none tempflag
          from_tty] }) ∧
    (∀ ws, (∀ x ∈ ws, isspace x = true) →
      catch_exception_command_1 ex_event (some ws) tempflag from_tty st =
        (cmd_result.done, { st with created := st.created ++
          [exception_request st.current_arch (trigger_symbol ex_event) none tempflag
            from_tty] })) ∧
    (∀ ws sp sps cond, (∀ x ∈ ws, isspace x = true) → isspace sp = true →
      (∀ x ∈ sps, isspace x = true) → (∀ c tl, cond = c :: tl → isspace c = false) →
      catch_exception_command_1 ex_event (some (ws ++ 'i' :: 'f' :: sp :: sps ++ cond))
          tempflag from_tty st =
        (cmd_result.done, { st with created := st.created ++
          [exception_request st.current_arch (trigger_symbol ex_event) (some cond) tempflag
            from_tty] })) := by
  refine ⟨fun ws c tl hws hc h0 hif => ?_, ?_, fun ws hws => ?_,
    fun ws sp sps cond hws hsp hsps hcond => ?_⟩
  · apply catch_exception_command_1_junk
    have hskip : skip_spaces (ws ++ c :: tl) = c :: tl :=
      skip_spaces_append ws (c :: tl) hws (fun c2 tl2 h => by cases h; exact hc)
    simp [well_formed_args, hskip, ep_parse_optional_if_clause_none _ hif, deref, hc, h0]
  · exact catch_exception_command_1_done ex_event none tempflag from_tty st (by decide)
  · have hskip : skip_spaces (ws ++ []) = [] :=
      skip_spaces_append ws [] hws (fun c2 tl2 h => by cases h)
    rw [List.append_nil] at hskip
    have hwf : well_formed_args (some ws) = true := by
      simp [well_formed_args, hskip, ep_parse_optional_if_clause, deref]
    have hcond : parsed_condition (some ws) = none := by
      simp [parsed_condition, hskip, ep_parse_optional_if_clause]
    rw [catch_exception_command_1_done ex_event (some ws) tempflag from_tty st hwf, hcond]
  · have hi : isspace 'i' = false := by decide
    have hskip : skip_spaces (ws ++ 'i' :: 'f' :: sp :: sps ++ cond)
        = 'i' :: 'f' :: sp :: (sps ++ cond) := by
      have := skip_spaces_append ws ('i' :: 'f' :: sp :: (sps ++ cond)) hws
        (fun c2 tl2 h => by cases h; exact hi)
      simpa using this
    have hcondskip : skip_spaces (sp :: (sps ++ cond)) = cond := by
      have := skip_spaces_append (sp :: sps) cond
        (fun x hx => by
          rcases List.mem_cons.mp hx with rfl | hx
          · exact hsp
          · exact hsps x hx) hcond
      simpa using this
    have hparse : ep_parse_optional_if_clause ('i' :: 'f' :: sp :: (sps ++ cond))
        = (some cond, []) := by
      simp [ep_parse_optional_if_clause, hsp, hcondskip]
    have hwf : well_formed_args (some (ws ++ 'i' :: 'f' :: sp :: sps ++ cond)) = true := by
      simp only [well_formed_args, Option.getD_some, hskip, hparse]
      decide
    have hc : parsed_condition (some (ws ++ 'i' :: 'f' :: sp :: sps ++ cond)) = some cond := by
      simp only [parsed_condition, Option.getD_some, hskip, hparse]
    rw [catch_exception_command_1_done ex_event _ tempflag from_tty st hwf, hc]

/-- Witness for C4: "catch throw extra junk" fails with the junk error and changes
nothing; "catch throw if x > 3" requests a catchpoint with the condition "x > 3". -/
theorem junk_error_or_verbatim_condition_witness :
    catch_exception_command_1 EX_EVENT_THROW (some ([] ++ 'e' :: "xtra junk".toList)) 0 1
        ⟨0, [], []⟩ = (cmd_result.error "Junk at end of arguments.", ⟨0, [], []⟩) ∧
    catch_exception_command_1 EX_EVENT_THROW (some ([] ++ 'i' :: 'f' :: ' ' :: [] ++ "x > 3".toList))
        0 1 ⟨0, [], []⟩ =
      (cmd_result.done, ⟨0, [] ++ [exception_request 0 (trigger_symbol EX_EVENT_THROW)
        (some "x > 3".toList) 0 1], []⟩) :=
  ⟨(junk_error_or_verbatim_condition EX_EVENT_THROW 0 1 ⟨0, [], []⟩).1
      [] 'e' "xtra junk".toList (by simp) (by decide) (by decide) (by simp),
   (junk_error_or_verbatim_condition EX_EVENT_THROW 0 1 ⟨0, [], []⟩).2.2.2
      [] ' ' [] "x > 3".toList (by simp) (by decide) (by simp)
      (fun c tl h => by
        have hc : c = 'x' := by simpa using (List.cons.inj h.symm).1
        rw [hc]; decide)⟩

/-- C8 (as stated) fails: there is no input and no state for which
`handle_gnu_v3_exceptions` returns 0, and none for which `catch_exception_command_1`
adds a warning. -/
theorem no_unsupported_warning :
    (¬ ∃ (tempflag : Int) (cond_string : Option (List Char)) (ex_event : exception_event_kind)
        (from_tty : Int) (st : gdb_state),
        (handle_gnu_v3_exceptions tempflag cond_string ex_event from_tty st).1 = 0) ∧
    (¬ ∃ (ex_event : exception_event_kind) (arg : Option (List Char)) (tempflag from_tty : Int)
        (st : gdb_state),
        (catch_exception_command_1 ex_event arg tempflag from_tty st).2.warnings
          ≠ st.warnings) := by
  constructor
  · rintro ⟨tempflag, cond_string, ex_event, from_tty, st, h⟩
    rw [handle_gnu_v3_exceptions_eq] at h
    exact absurd h one_ne_zero
  · rintro ⟨ex_event, arg, tempflag, from_tty, st, h⟩
    apply h
    cases hw : well_formed_args arg
    · rw [catch_exception_command_1_junk ex_event arg tempflag from_tty st hw]
    · rw [catch_exception_command_1_done ex_event arg tempflag from_tty st hw]

/-- C8 (amended): `handle_gnu_v3_exceptions` never returns the failure sentinel: for every
input and state it makes exactly one `create_breakpoint` request, for the kind's symbol
and with pending locations allowed, and returns 1.  So `catch_exception_command_1` never
emits the warning: it either raises the junk error with the state unchanged, or ends
normally after exactly one request, with the warnings as they were. -/
theorem resolver_always_requests (tempflag : Int) (cond_string : Option (List Char))
    (ex_event : exception_event_kind) (arg : Option (List Char)) (from_tty : Int)
    (st : gdb_state) :
    (handle_gnu_v3_exceptions tempflag cond_string ex_event from_tty st).1 = 1 ∧
    (handle_gnu_v3_exceptions tempflag cond_string ex_event from_tty st).2 =
      { st with created := st.created ++
        [exception_request st.current_arch (trigger_symbol ex_event) cond_string tempflag
          from_tty] } ∧
    (exception_request st.current_arch (trigger_symbol ex_event) cond_string tempflag
        from_tty).pending_break_support = auto_boolean.AUTO_BOOLEAN_TRUE ∧
    (catch_exception_command_1 ex_event arg tempflag from_tty st).2.warnings = st.warnings ∧
    (catch_exception_command_1 ex_event arg tempflag from_tty st =
        (cmd_result.error "Junk at end of arguments.", st) ∨
      catch_exception_command_1 ex_event arg tempflag from_tty st =
        (cmd_result.done, { st with created := st.created ++
          [exception_request st.current_arch (trigger_symbol ex_event) (parsed_condition arg)
            tempflag from_tty] })) := by
  refine ⟨by rw [handle_gnu_v3_exceptions_eq], by rw [handle_gnu_v3_exceptions_eq], rfl, ?_, ?_⟩
  · cases hw : well_formed_args arg
    · rw [catch_exception_command_1_junk ex_event arg tempflag from_tty st hw]
    · rw [catch_exception_command_1_done ex_event arg tempflag from_tty st hw]
  · cases hw : well_formed_args arg
    · exact Or.inl (catch_exception_command_1_junk ex_event arg tempflag from_tty st hw)
    · exact Or.inr (catch_exception_command_1_done ex_event arg tempflag from_tty st hw)

/-- The catchpoint built from the request just appended. -/
theorem last_created_append (number : Int) (st : gdb_state) (req : create_breakpoint_args) :
    last_created number { st with created := st.created ++ [req] }
      = some (breakpoint_of_request number req) := by
  simp [last_created]

/-- The classifier recovers the kind from the trigger symbol of that kind. -/
theorem classify_trigger_symbol (k : exception_event_kind) (number tempflag from_tty : Int)
    (gdbarch : Nat) (cond_string : Option (List Char)) :
    classify_exception_breakpoint (breakpoint_of_request number
      (exception_request gdbarch (trigger_symbol k) cond_string tempflag from_tty)) = k := by
  cases k <;> rfl

/-- Skipping an all-whitespace string leaves nothing. -/
theorem skip_spaces_all (ws : List Char) (hws : ∀ x ∈ ws, isspace x = true) :
    skip_spaces ws = [] := by
  have h := skip_spaces_append ws [] hws (fun c tl h => by cases h)
  rwa [List.append_nil] at h

/-- The leading word ends at the first whitespace character. -/
theorem split_word_append (w rest : List Char) (hw : ∀ x ∈ w, isspace x = false)
    (hrest : ∀ c tl, rest = c :: tl → isspace c = true) :
    split_word (w ++ rest) = (w, rest) := by
  induction w with
  | nil =>
    cases rest with
    | nil => rfl
    | cons c tl => simp [split_word, hrest c tl rfl]
  | cons a w ih =>
    have ha := hw a (List.mem_cons_self _ _)
    have hi := ih (fun x hx => hw x (List.mem_cons_of_mem _ hx))
    simp [split_word, ha, hi]

/-- Dispatching the alias followed by the kind keyword and trailing whitespace calls the
handler of that kind with a NULL argument and the entry registered for the alias. -/
theorem execute_command_alias_keyword (k : exception_event_kind) (temp : Bool)
    (suffix : List Char) (hsuffix : ∀ x ∈ suffix, isspace x = true)
    (from_tty : Int) (st : gdb_state) :
    execute_command (_initialize_break_catch_throw ⟨[], []⟩)
        ((if temp then "tcatch ".toList else "catch ".toList) ++ keyword_of_kind k ++ suffix)
        from_tty st =
      handler_of_kind k none from_tty
        ⟨keyword_of_kind k, if temp then CATCH_TEMPORARY else CATCH_PERMANENT⟩ st := by
  have hkw : split_word (keyword_of_kind k ++ suffix) = (keyword_of_kind k, suffix) :=
    split_word_append _ _ (by cases k <;> decide)
      (fun c tl h => hsuffix c (by rw [h]; exact List.mem_cons_self _ _))
  have hskw : skip_spaces (keyword_of_kind k ++ suffix) = keyword_of_kind k ++ suffix := by
    cases k <;> rfl
  have hsuf : skip_spaces suffix = [] := skip_spaces_all suffix hsuffix
  cases temp
  · show execute_command _ ("catch".toList ++ (' ' :: (keyword_of_kind k ++ suffix)))
      from_tty st = handler_of_kind k none from_tty ⟨keyword_of_kind k, CATCH_PERMANENT⟩ st
    have h1 : skip_spaces ("catch".toList ++ (' ' :: (keyword_of_kind k ++ suffix)))
        = "catch".toList ++ (' ' :: (keyword_of_kind k ++ suffix)) := rfl
    have h2 : split_word ("catch".toList ++ (' ' :: (keyword_of_kind k ++ suffix)))
        = ("catch".toList, ' ' :: (keyword_of_kind k ++ suffix)) := rfl
    have h3 : skip_spaces (' ' :: (keyword_of_kind k ++ suffix))
        = skip_spaces (keyword_of_kind k ++ suffix) := rfl
    unfold execute_command
    simp only [h1, h2, h3, hskw, hkw, hsuf]
    cases k <;> rfl
  · show execute_command _ ("tcatch".toList ++ (' ' :: (keyword_of_kind k ++ suffix)))
      from_tty st = handler_of_kind k none from_tty ⟨keyword_of_kind k, CATCH_TEMPORARY⟩ st
    have h1 : skip_spaces ("tcatch".toList ++ (' ' :: (keyword_of_kind k ++ suffix)))
        = "tcatch".toList ++ (' ' :: (keyword_of_kind k ++ suffix)) := rfl
    have h2 : split_word ("tcatch".toList ++ (' ' :: (keyword_of_kind k ++ suffix)))
        = ("tcatch".toList, ' ' :: (keyword_of_kind k ++ suffix)) := rfl
    have h3 : skip_spaces (' ' :: (keyword_of_kind k ++ suffix))
        = skip_spaces (keyword_of_kind k ++ suffix) := rfl
    unfold execute_command
    simp only [h1, h2, h3, hskw, hkw, hsuf]
    cases k <;> rfl

/-- C2: for every kind and both dispositions, the catchpoint created by the kind's handler
under the disposition's alias (for any argument that passes the junk test) is classified
as that kind and has that disposition; the text `print_recreate_exception_catchpoint`
writes for it, when `print_recreate_thread` adds no thread suffix (it writes nothing, or
only whitespace such as the line end), is "tcatch " or "catch " followed by the kind
keyword and that whitespace; and dispatching that text through the registered `catch` /
`tcatch` sub-commands ends normally with one new request whose catchpoint has the same
kind and the same disposition. -/
theorem recreate_round_trip (k : exception_event_kind) (temp : Bool)
    (arg : Option (List Char)) (from_tty from_tty2 number number2 : Int) (name : List Char)
    (st st2 : gdb_state) (suffix : List Char) (h : well_formed_args arg = true)
    (hsuffix : ∀ x ∈ suffix, isspace x = true) :
    ∃ b, last_created number
        (handler_of_kind k arg from_tty
          ⟨name, if temp then CATCH_TEMPORARY else CATCH_PERMANENT⟩ st).2 = some b ∧
      b.addr_string = trigger_symbol k ∧
      classify_exception_breakpoint b = k ∧
      b.disposition = (if temp then bpdisp.disp_del else bpdisp.disp_donttouch) ∧
      print_recreate_exception_catchpoint (fun _ => suffix) b =
        (if temp then "tcatch ".toList else "catch ".toList) ++ keyword_of_kind k ++ suffix ∧
      ∃ req2 b2,
        execute_command (_initialize_break_catch_throw ⟨[], []⟩)
            (print_recreate_exception_catchpoint (fun _ => suffix) b) from_tty2 st2 =
          (cmd_result.done, { st2 with created := st2.created ++ [req2] }) ∧
        last_created number2
          (execute_command (_initialize_break_catch_throw ⟨[], []⟩)
            (print_recreate_exception_catchpoint (fun _ => suffix) b) from_tty2 st2).2 = some b2 ∧
        b2 = breakpoint_of_request number2 req2 ∧
        classify_exception_breakpoint b2 = k ∧
        b2.disposition = b.disposition := by
  have hrun : handler_of_kind k arg from_tty
      ⟨name, if temp then CATCH_TEMPORARY else CATCH_PERMANENT⟩ st =
      (cmd_result.done, { st with created := st.created ++
        [exception_request st.current_arch (trigger_symbol k) (parsed_condition arg)
          (if temp then 1 else 0) from_tty] }) := by
    have := catch_exception_command_1_done k arg (if temp then 1 else 0) from_tty st h
    cases k <;> cases temp <;> exact this
  have hclass := classify_trigger_symbol k number (if temp then 1 else 0) from_tty
    st.current_arch (parsed_condition arg)
  have htext : print_recreate_exception_catchpoint (fun _ => suffix)
      (breakpoint_of_request number
        (exception_request st.current_arch (trigger_symbol k) (parsed_condition arg)
          (if temp then 1 else 0) from_tty)) =
      (if temp then "tcatch ".toList else "catch ".toList) ++ keyword_of_kind k ++ suffix := by
    unfold print_recreate_exception_catchpoint
    rw [hclass]
    cases k <;> cases temp <;> rfl
  have hrun2 : execute_command (_initialize_break_catch_throw ⟨[], []⟩)
      ((if temp then "tcatch ".toList else "catch ".toList) ++ keyword_of_kind k ++ suffix)
      from_tty2 st2 =
      (cmd_result.done, { st2 with created := st2.created ++
        [exception_request st2.current_arch (trigger_symbol k) (parsed_condition none)
          (if temp then 1 else 0) from_tty2] }) := by
    rw [execute_command_alias_keyword k temp suffix hsuffix]
    have := catch_exception_command_1_done k none (if temp then 1 else 0) from_tty2 st2
      (by decide)
    cases k <;> cases temp <;> exact this
  refine ⟨breakpoint_of_request number
      (exception_request st.current_arch (trigger_symbol k) (parsed_condition arg)
        (if temp then 1 else 0) from_tty), ?_, rfl, hclass, ?_, htext,
    exception_request st2.current_arch (trigger_symbol k) (parsed_condition none)
      (if temp then 1 else 0) from_tty2,
    breakpoint_of_request number2
      (exception_request st2.current_arch (trigger_symbol k) (parsed_condition none)
        (if temp then 1 else 0) from_tty2), ?_, ?_, rfl, ?_, ?_⟩
  · rw [hrun]; exact last_created_append _ _ _
  · cases temp <;> rfl
  · rw [htext, hrun2]
  · rw [htext, hrun2]; exact last_created_append _ _ _
  · exact classify_trigger_symbol k number2 _ from_tty2 st2.current_arch _
  · cases temp <;> rfl

/-- Witness for C2: `tcatch rethrow` created with no argument, recreated from the text
"tcatch rethrow". -/
theorem recreate_round_trip_witness :
    well_formed_args none = true ∧
    ∃ b, last_created 4
        (handler_of_kind EX_EVENT_RETHROW none 1
          ⟨"rethrow".toList, if true then CATCH_TEMPORARY else CATCH_PERMANENT⟩
          ⟨0, [], []⟩).2 = some b ∧
      b.addr_string = trigger_symbol EX_EVENT_RETHROW ∧
      classify_exception_breakpoint b = EX_EVENT_RETHROW ∧
      b.disposition = (if true then bpdisp.disp_del else bpdisp.disp_donttouch) ∧
      print_recreate_exception_catchpoint (fun _ => []) b =
        (if true then "tcatch ".toList else "catch ".toList)
          ++ keyword_of_kind EX_EVENT_RETHROW ++ [] :=
  ⟨by decide,
   let ⟨b, h1, h2, h3, h4, h5, _⟩ := recreate_round_trip EX_EVENT_RETHROW true none 1 1 4 9
      "rethrow".toList ⟨0, [], []⟩ ⟨0, [], []⟩ [] (by decide) (by simp)
   ⟨b, h1, h2, h3, h4, h5⟩⟩

/-- Skipping whitespace twice is skipping it once. -/
theorem skip_spaces_idem (s : List Char) : skip_spaces (skip_spaces s) = skip_spaces s := by
  induction s with
  | nil => rfl
  | cons c s ih =>
    by_cases hc : isspace c = true
    · simp only [skip_spaces, hc, if_true]
      exact ih
    · simp [skip_spaces, hc]

/-- Each registered handler is `catch_exception_command_1` at its kind, with `tempflag`
computed from the command's context. -/
theorem handler_of_kind_eq (k : exception_event_kind) (arg : Option (List Char))
    (from_tty : Int) (command : cmd_list_element) (st : gdb_state) :
    handler_of_kind k arg from_tty command st =
      catch_exception_command_1 k arg
        (if command.context = CATCH_TEMPORARY then 1 else 0) from_tty st := by
  cases k <;> rfl

/-- The argument the dispatcher hands over (the rest of the line without its leading
whitespace, NULL when empty) is treated like the rest of the line itself. -/
theorem catch_exception_command_1_dispatched_arg (ex_event : exception_event_kind)
    (tail : List Char) (tempflag from_tty : Int) (st : gdb_state) :
    catch_exception_command_1 ex_event
        (if skip_spaces tail = [] then none else some (skip_spaces tail)) tempflag from_tty st =
      catch_exception_command_1 ex_event (some tail) tempflag from_tty st := by
  by_cases ht : skip_spaces tail = []
  · rw [if_pos ht]
    unfold catch_exception_command_1
    simp only [ht]
    rfl
  · rw [if_neg ht]
    unfold catch_exception_command_1
    simp only [skip_spaces_idem]

/-- Dispatching the alias followed by the kind keyword and the rest of the line calls the
handler of that kind with the entry registered for the alias and with the rest of the line
as its argument. -/
theorem execute_command_alias_keyword_args (k : exception_event_kind) (temp : Bool)
    (tail : List Char) (htail : ∀ c tl, tail = c :: tl → isspace c = true)
    (from_tty : Int) (st : gdb_state) :
    execute_command (_initialize_break_catch_throw ⟨[], []⟩)
        ((if temp then "tcatch ".toList else "catch ".toList) ++ keyword_of_kind k ++ tail)
        from_tty st =
      handler_of_kind k (if skip_spaces tail = [] then none else some (skip_spaces tail))
        from_tty ⟨keyword_of_kind k, if temp then CATCH_TEMPORARY else CATCH_PERMANENT⟩ st := by
  have hkw : split_word (keyword_of_kind k ++ tail) = (keyword_of_kind k, tail) :=
    split_word_append _ _ (by cases k <;> decide) htail
  have hskw : skip_spaces (keyword_of_kind k ++ tail) = keyword_of_kind k ++ tail := by
    cases k <;> rfl
  cases temp
  · show execute_command _ ("catch".toList ++ (' ' :: (keyword_of_kind k ++ tail)))
      from_tty st = handler_of_kind k _ from_tty ⟨keyword_of_kind k, CATCH_PERMANENT⟩ st
    have h1 : skip_spaces ("catch".toList ++ (' ' :: (keyword_of_kind k ++ tail)))
        = "catch".toList ++ (' ' :: (keyword_of_kind k ++ tail)) := rfl
    have h2 : split_word ("catch".toList ++ (' ' :: (keyword_of_kind k ++ tail)))
        = ("catch".toList, ' ' :: (keyword_of_kind k ++ tail)) := rfl
    have h3 : skip_spaces (' ' :: (keyword_of_kind k ++ tail))
        = skip_spaces (keyword_of_kind k ++ tail) := rfl
    unfold execute_command
    simp only [h1, h2, h3, hskw, hkw]
    cases k <;> rfl
  · show execute_command _ ("tcatch".toList ++ (' ' :: (keyword_of_kind k ++ tail)))
      from_tty st = handler_of_kind k _ from_tty ⟨keyword_of_kind k, CATCH_TEMPORARY⟩ st
    have h1 : skip_spaces ("tcatch".toList ++ (' ' :: (keyword_of_kind k ++ tail)))
        = "tcatch".toList ++ (' ' :: (keyword_of_kind k ++ tail)) := rfl
    have h2 : split_word ("tcatch".toList ++ (' ' :: (keyword_of_kind k ++ tail)))
        = ("tcatch".toList, ' ' :: (keyword_of_kind k ++ tail)) := rfl
    have h3 : skip_spaces (' ' :: (keyword_of_kind k ++ tail))
        = skip_spaces (keyword_of_kind k ++ tail) := rfl
    unfold execute_command
    simp only [h1, h2, h3, hskw, hkw]
    cases k <;> rfl

/-- A command line `ALIAS KIND REST`, dispatched through the registered lists, ends
normally with one request whose `tempflag` is 1 under `tcatch` and 0 under `catch`. -/
theorem execute_command_alias_request (k : exception_event_kind) (temp : Bool)
    (tail : List Char) (htail : ∀ c tl, tail = c :: tl → isspace c = true)
    (hwf : well_formed_args (some tail) = true) (from_tty : Int) (st : gdb_state) :
    execute_command (_initialize_break_catch_throw ⟨[], []⟩)
        ((if temp then "tcatch ".toList else "catch ".toList) ++ keyword_of_kind k ++ tail)
        from_tty st =
      (cmd_result.done, { st with created := st.created ++
        [exception_request st.current_arch (trigger_symbol k) (parsed_condition (some tail))
          (if temp then 1 else 0) from_tty] }) := by
  rw [execute_command_alias_keyword_args k temp tail htail, handler_of_kind_eq,
    catch_exception_command_1_dispatched_arg,
    catch_exception_command_1_done k (some tail) _ from_tty st hwf]
  cases temp <;> rfl

/-- C5: the disposition is fixed by the alias, never by the argument text.  For each of
the three handlers and every argument that passes the junk test, the `tempflag` of the
single request is 1 when the command's context is `CATCH_TEMPORARY` (the catchpoint is
delete-after-hit) and 0 otherwise, in particular when it is `CATCH_PERMANENT` (the
catchpoint persists).  The registration puts each kind's handler under its keyword in the
`tcatch` list with context `CATCH_TEMPORARY` and in the `catch` list with context
`CATCH_PERMANENT`, every entry of the two lists carrying its alias's context.  So every
command line `tcatch KIND REST` whose rest passes the junk test makes one request with
`tempflag` 1, and `catch KIND REST` makes the same request with `tempflag` 0. -/
theorem tempflag_fixed_by_alias (k : exception_event_kind) (arg : Option (List Char))
    (tail : List Char) (from_tty number : Int) (command : cmd_list_element) (st : gdb_state)
    (h : well_formed_args arg = true)
    (htail : ∀ c tl, tail = c :: tl → isspace c = true)
    (hwf : well_formed_args (some tail) = true) :
    (∃ req, handler_of_kind k arg from_tty command st =
        (cmd_result.done, { st with created := st.created ++ [req] }) ∧
      req.tempflag = (if command.context = CATCH_TEMPORARY then 1 else 0) ∧
      (command.context = CATCH_TEMPORARY →
        req.tempflag = 1 ∧
        (breakpoint_of_request number req).disposition = bpdisp.disp_del) ∧
      (command.context = CATCH_PERMANENT →
        req.tempflag = 0 ∧
        (breakpoint_of_request number req).disposition = bpdisp.disp_donttouch) ∧
      (req.tempflag = 1 ↔ get_cmd_context command = CATCH_TEMPORARY) ∧
      (req.tempflag = 0 ↔ get_cmd_context command ≠ CATCH_TEMPORARY) ∧
      ((breakpoint_of_request number req).disposition = bpdisp.disp_del ↔
        get_cmd_context command = CATCH_TEMPORARY)) ∧
    (∃ c, lookup_cmd (keyword_of_kind k)
        (_initialize_break_catch_throw ⟨[], []⟩).tcatch_cmdlist = some c ∧
      c.element = ⟨keyword_of_kind k, CATCH_TEMPORARY⟩ ∧ c.sfunc = handler_of_kind k) ∧
    (∃ c, lookup_cmd (keyword_of_kind k)
        (_initialize_break_catch_throw ⟨[], []⟩).catch_cmdlist = some c ∧
      c.element = ⟨keyword_of_kind k, CATCH_PERMANENT⟩ ∧ c.sfunc = handler_of_kind k) ∧
    (∀ c ∈ (_initialize_break_catch_throw ⟨[], []⟩).tcatch_cmdlist,
      c.element.context = CATCH_TEMPORARY) ∧
    (∀ c ∈ (_initialize_break_catch_throw ⟨[], []⟩).catch_cmdlist,
      c.element.context = CATCH_PERMANENT) ∧
    (∃ req, execute_command (_initialize_break_catch_throw ⟨[], []⟩)
          ("tcatch ".toList ++ keyword_of_kind k ++ tail) from_tty st =
        (cmd_result.done, { st with created := st.created ++ [req] }) ∧
      req.tempflag = 1 ∧
      (breakpoint_of_request number req).disposition = bpdisp.disp_del ∧
      req.arg = trigger_symbol k ∧
      req.cond_string = parsed_condition (some tail)) ∧
    (∃ req, execute_command (_initialize_break_catch_throw ⟨[], []⟩)
          ("catch ".toList ++ keyword_of_kind k ++ tail) from_tty st =
        (cmd_result.done, { st with created := st.created ++ [req] }) ∧
      req.tempflag = 0 ∧
      (breakpoint_of_request number req).disposition = bpdisp.disp_donttouch ∧
      req.arg = trigger_symbol k ∧
      req.cond_string = parsed_condition (some tail)) := by
  refine ⟨⟨exception_request st.current_arch (trigger_symbol k) (parsed_condition arg)
      (if command.context = CATCH_TEMPORARY then 1 else 0) from_tty,
      ?_, rfl, ?_, ?_, ?_, ?_, ?_⟩, ?_, ?_, ?_, ?_,
    ⟨exception_request st.current_arch (trigger_symbol k) (parsed_condition (some tail))
      1 from_tty, ?_, rfl, rfl, rfl, rfl⟩,
    ⟨exception_request st.current_arch (trigger_symbol k) (parsed_condition (some tail))
      0 from_tty, ?_, rfl, rfl, rfl, rfl⟩⟩
  · rw [handler_of_kind_eq]
    exact catch_exception_command_1_done _ arg _ from_tty st h
  · intro hc
    simp [exception_request, breakpoint_of_request, hc]
  · intro hp
    simp [exception_request, breakpoint_of_request, hp, CATCH_PERMANENT, CATCH_TEMPORARY]
  · by_cases hc : command.context = CATCH_TEMPORARY <;>
      simp [exception_request, get_cmd_context, hc]
  · by_cases hc : command.context = CATCH_TEMPORARY <;>
      simp [exception_request, get_cmd_context, hc]
  · by_cases hc : command.context = CATCH_TEMPORARY <;>
      simp [exception_request, breakpoint_of_request, get_cmd_context, hc]
  · cases k <;> exact ⟨_, rfl, rfl, rfl⟩
  · cases k <;> exact ⟨_, rfl, rfl, rfl⟩
  · intro c hc
    simp [_initialize_break_catch_throw, add_catch_command] at hc
    rcases hc with rfl | rfl | rfl <;> rfl
  · intro c hc
    simp [_initialize_break_catch_throw, add_catch_command] at hc
    rcases hc with rfl | rfl | rfl <;> rfl
  · exact execute_command_alias_request k true tail htail hwf from_tty st
  · exact execute_command_alias_request k false tail htail hwf from_tty st

/-- Witness for C5: the line "tcatch throw if x > 3" makes one request with `tempflag`
1, and "catch throw if x > 3" makes one with `tempflag` 0. -/
theorem tempflag_fixed_by_alias_witness :
    (∃ req, execute_command (_initialize_break_catch_throw ⟨[], []⟩)
          ("tcatch ".toList ++ keyword_of_kind EX_EVENT_THROW ++ (' ' :: "if x > 3".toList))
          1 ⟨0, [], []⟩ =
        (cmd_result.done, ⟨0, [] ++ [req], []⟩) ∧
      req.tempflag = 1 ∧
      (breakpoint_of_request 5 req).disposition = bpdisp.disp_del) ∧
    (∃ req, execute_command (_initialize_break_catch_throw ⟨[], []⟩)
          ("catch ".toList ++ keyword_of_kind EX_EVENT_THROW ++ (' ' :: "if x > 3".toList))
          1 ⟨0, [], []⟩ =
        (cmd_result.done, ⟨0, [] ++ [req], []⟩) ∧
      req.tempflag = 0 ∧
      (breakpoint_of_request 5 req).disposition = bpdisp.disp_donttouch) :=
  have hw := tempflag_fixed_by_alias EX_EVENT_THROW none (' ' :: "if x > 3".toList) 1 5
    ⟨"throw".toList, CATCH_TEMPORARY⟩ ⟨0, [], []⟩ (by decide)
    (fun c tl h => by
      have hc : c = ' ' := (List.cons.inj h).1.symm
      rw [hc]; decide)
    (by decide)
  ⟨let ⟨req, h1, h2, h3, _⟩ := hw.2.2.2.2.2.1
   ⟨req, h1, h2, h3⟩,
   let ⟨req, h1, h2, h3, _⟩ := hw.2.2.2.2.2.2
   ⟨req, h1, h2, h3⟩⟩

/-- C6 (as stated) fails: in plain interactive mode the tagged field "bkptno" is emitted,
here for the permanent throw catchpoint number 7. -/
theorem print_it_interactive_emits_bkptno :
    ui_event.ui_out_field_int "bkptno" 7 ∈
      (print_it_exception_catchpoint ⟨false, "breakpoint-hit", fun _ => "keep"⟩
        ⟨⟨7, bpdisp.disp_donttouch, "__cxa_throw".toList, none, -1⟩⟩).2 ∧
    field_names (print_it_exception_catchpoint ⟨false, "breakpoint-hit", fun _ => "keep"⟩
        ⟨⟨7, bpdisp.disp_donttouch, "__cxa_throw".toList, none, -1⟩⟩).2 = ["bkptno"] := by
  constructor
  · simp [print_it_exception_catchpoint]
  · simp [print_it_exception_catchpoint, field_names, ui_event.fldname?]

/-- C6 (amended): for every catchpoint, `print_it_exception_catchpoint` in interactive
mode makes exactly these calls, in this order: the catchpoint annotation, the prose
"Temporary catchpoint " or "Catchpoint ", the tagged field "bkptno" with the number, and
the prose for the kind; in structured mode exactly these: the annotation, the same two
pieces of prose, then the tagged fields "reason", "disp" and "bkptno".  So everything
emitted in interactive mode is emitted in structured mode too, "bkptno" is emitted in
both modes (between the two pieces of prose in interactive mode, after them in structured
mode), "reason" and "disp" are what structured mode adds and are absent in interactive
mode, and both modes return `PRINT_SRC_AND_LOC`. -/
theorem print_it_exception_catchpoint_modes (reason : String) (disp_text : bpdisp → String)
    (bs : bpstats) :
    (print_it_exception_catchpoint ⟨false, reason, disp_text⟩ bs).2 =
      [ui_event.annotate_catchpoint bs.breakpoint_at.number,
       ui_event.ui_out_text
         (if bs.breakpoint_at.disposition = bpdisp.disp_del then "Temporary catchpoint "
          else "Catchpoint "),
       ui_event.ui_out_field_int "bkptno" bs.breakpoint_at.number,
       ui_event.ui_out_text
         (match classify_exception_breakpoint bs.breakpoint_at with
          | EX_EVENT_THROW => " (exception thrown), "
          | EX_EVENT_CATCH => " (exception caught), "
          | EX_EVENT_RETHROW => " (exception rethrown), ")] ∧
    (print_it_exception_catchpoint ⟨true, reason, disp_text⟩ bs).2 =
      [ui_event.annotate_catchpoint bs.breakpoint_at.number,
       ui_event.ui_out_text
         (if bs.breakpoint_at.disposition = bpdisp.disp_del then "Temporary catchpoint "
          else "Catchpoint "),
       ui_event.ui_out_text
         (match classify_exception_breakpoint bs.breakpoint_at with
          | EX_EVENT_THROW => " (exception thrown), "
          | EX_EVENT_CATCH => " (exception caught), "
          | EX_EVENT_RETHROW => " (exception rethrown), "),
       ui_event.ui_out_field_string "reason" reason,
       ui_event.ui_out_field_string "disp" (disp_text bs.breakpoint_at.disposition),
       ui_event.ui_out_field_int "bkptno" bs.breakpoint_at.number] ∧
    (∀ e, e ∈ (print_it_exception_catchpoint ⟨false, reason, disp_text⟩ bs).2 →
        e ∈ (print_it_exception_catchpoint ⟨true, reason, disp_text⟩ bs).2) ∧
    field_names (print_it_exception_catchpoint ⟨true, reason, disp_text⟩ bs).2
      = ["reason", "disp", "bkptno"] ∧
    field_names (print_it_exception_catchpoint ⟨false, reason, disp_text⟩ bs).2
      = ["bkptno"] ∧
    (print_it_exception_catchpoint ⟨true, reason, disp_text⟩ bs).2 =
      ((print_it_exception_catchpoint ⟨false, reason, disp_text⟩ bs).2.filter
          (fun e => e.fldname? = none)) ++
        [ui_event.ui_out_field_string "reason" reason,
         ui_event.ui_out_field_string "disp" (disp_text bs.breakpoint_at.disposition),
         ui_event.ui_out_field_int "bkptno" bs.breakpoint_at.number] ∧
    (print_it_exception_catchpoint ⟨true, reason, disp_text⟩ bs).1
      = print_stop_action.PRINT_SRC_AND_LOC ∧
    (print_it_exception_catchpoint ⟨false, reason, disp_text⟩ bs).1
      = print_stop_action.PRINT_SRC_AND_LOC := by
  refine ⟨?_, ?_, ?_, ?_, ?_, ?_, rfl, rfl⟩
  · cases hk : classify_exception_breakpoint bs.breakpoint_at <;>
      simp [print_it_exception_catchpoint, hk]
  · cases hk : classify_exception_breakpoint bs.breakpoint_at <;>
      simp [print_it_exception_catchpoint, hk]
  · intro e he
    simp only [print_it_exception_catchpoint] at he ⊢
    simp at he ⊢
    rcases he with h | h | h | h <;> simp [h]
  · simp [print_it_exception_catchpoint, field_names, ui_event.fldname?]
  · simp [print_it_exception_catchpoint, field_names, ui_event.fldname?]
  · simp [print_it_exception_catchpoint, ui_event.fldname?, List.filter]

/-- Witness for the amended C6: the "bkptno" field of the permanent throw catchpoint
number 7, emitted in interactive mode, is emitted in structured mode too; and its
interactive trace has that field between the two pieces of prose. -/
theorem print_it_exception_catchpoint_modes_witness :
    ui_event.ui_out_field_int "bkptno" 7 ∈
      (print_it_exception_catchpoint ⟨true, "breakpoint-hit", fun _ => "keep"⟩
        ⟨⟨7, bpdisp.disp_donttouch, "__cxa_throw".toList, none, -1⟩⟩).2 ∧
    (print_it_exception_catchpoint ⟨false, "breakpoint-hit", fun _ => "keep"⟩
        ⟨⟨7, bpdisp.disp_donttouch, "__cxa_throw".toList, none, -1⟩⟩).2 =
      [ui_event.annotate_catchpoint 7, ui_event.ui_out_text "Catchpoint ",
       ui_event.ui_out_field_int "bkptno" 7,
       ui_event.ui_out_text " (exception thrown), "] :=
  ⟨(print_it_exception_catchpoint_modes "breakpoint-hit" (fun _ => "keep")
      ⟨⟨7, bpdisp.disp_donttouch, "__cxa_throw".toList, none, -1⟩⟩).2.2.1 _
      (by simp [print_it_exception_catchpoint]),
   (print_it_exception_catchpoint_modes "breakpoint-hit" (fun _ => "keep")
      ⟨⟨7, bpdisp.disp_donttouch, "__cxa_throw".toList, none, -1⟩⟩).1⟩

end BreakCatchThrow

namespace NaclTdep

/-- C10: when `ZEROVM_BASE + 2^32` does not overflow 64 bits, every non-zero raw pointer
value (of any width) is translated to an address that `nacl_sandbox_address_p` accepts,
that is, one in `[ZEROVM_BASE, ZEROVM_BASE + 4GiB)`; the null pointer is translated to 0,
which `nacl_sandbox_address_p` rejects whenever `ZEROVM_BASE > 0`. -/
theorem nacl_pointer_to_address_in_sandbox (ZEROVM_BASE r : Nat)
    (hbase : ZEROVM_BASE + 2 ^ 32 < 2 ^ 64) :
    (r ≠ 0 →
      nacl_sandbox_address_p ZEROVM_BASE (nacl_pointer_to_address ZEROVM_BASE r) = 1 ∧
      ZEROVM_BASE ≤ nacl_pointer_to_address ZEROVM_BASE r ∧
      nacl_pointer_to_address ZEROVM_BASE r < ZEROVM_BASE + 2 ^ 32) ∧
    nacl_pointer_to_address ZEROVM_BASE 0 = 0 ∧
    (0 < ZEROVM_BASE →
      nacl_sandbox_address_p ZEROVM_BASE (nacl_pointer_to_address ZEROVM_BASE 0) = 0) := by
  have hlow : r % 2 ^ 32 < 2 ^ 32 := Nat.mod_lt _ (by norm_num)
  refine ⟨fun hne => ?_, by simp [nacl_pointer_to_address], fun hpos => ?_⟩
  · have hval : nacl_pointer_to_address ZEROVM_BASE r = ZEROVM_BASE + r % 2 ^ 32 := by
      unfold nacl_pointer_to_address
      rw [if_pos hne]
      exact Nat.mod_eq_of_lt (by omega)
    have hend : (ZEROVM_BASE + 4 * 1024 * 1024 * 1024) % 2 ^ 64 = ZEROVM_BASE + 2 ^ 32 := by
      rw [Nat.mod_eq_of_lt (by omega)]
      norm_num
    rw [hval]
    refine ⟨?_, by omega, by omega⟩
    unfold nacl_sandbox_address_p
    rw [hend, if_pos ⟨by omega, by omega⟩]
  · unfold nacl_sandbox_address_p nacl_pointer_to_address
    simp only [ne_eq, not_true_eq_false, if_false]
    rw [if_neg]
    rintro ⟨h1, _⟩
    omega

/-- Witness for C10 at base `0x440000000000` and raw pointer `0x1234`. -/
theorem nacl_pointer_to_address_in_sandbox_witness :
    nacl_sandbox_address_p 0x440000000000 (nacl_pointer_to_address 0x440000000000 0x1234) = 1 ∧
    nacl_pointer_to_address 0x440000000000 0x1234 = 0x440000001234 ∧
    nacl_sandbox_address_p 0x440000000000 (nacl_pointer_to_address 0x440000000000 0) = 0 := by
  have h := nacl_pointer_to_address_in_sandbox 0x440000000000 0x1234 (by norm_num)
  exact ⟨(h.1 (by norm_num)).1, by decide, h.2.2 (by norm_num)⟩

/-- C9 (as stated) fails: with base `0x440000000000` the 64-bit raw value `2^32 + 5` is
translated to `base + 5`, not to `base + (2^32 + 5)`; so the translation is not
`ZEROVM_BASE + r` for every non-zero raw value. -/
theorem nacl_pointer_to_address_not_base_plus_raw :
    nacl_pointer_to_address 0x440000000000 (2 ^ 32 + 5) = 0x440000000005 ∧
    nacl_pointer_to_address 0x440000000000 (2 ^ 32 + 5)
      ≠ (0x440000000000 + (2 ^ 32 + 5)) % 2 ^ 64 ∧
    ¬ (∀ ZEROVM_BASE r : Nat, ZEROVM_BASE < 2 ^ 64 → r < 2 ^ 64 →
        nacl_pointer_to_address ZEROVM_BASE r =
          if r = 0 then 0 else (ZEROVM_BASE + r) % 2 ^ 64) := by
  refine ⟨by decide, by decide, fun h => ?_⟩
  have h1 := h 0x440000000000 (2 ^ 32 + 5) (by norm_num) (by norm_num)
  revert h1
  decide

/-- C9 (amended): the translation is 0 for the raw value 0 and otherwise `ZEROVM_BASE`
plus the low 32 bits of the raw value, in 64-bit unsigned arithmetic; for a raw value
below `2^32` that is `ZEROVM_BASE + r` in 64-bit unsigned arithmetic. -/
theorem nacl_pointer_to_address_low32 (ZEROVM_BASE r : Nat) :
    nacl_pointer_to_address ZEROVM_BASE 0 = 0 ∧
    (r ≠ 0 → nacl_pointer_to_address ZEROVM_BASE r = (ZEROVM_BASE + r % 2 ^ 32) % 2 ^ 64) ∧
    (r ≠ 0 → r < 2 ^ 32 →
      nacl_pointer_to_address ZEROVM_BASE r = (ZEROVM_BASE + r) % 2 ^ 64) := by
  refine ⟨by simp [nacl_pointer_to_address], fun hne => ?_, fun hne hlt => ?_⟩
  · unfold nacl_pointer_to_address
    rw [if_pos hne]
  · unfold nacl_pointer_to_address
    rw [if_pos hne, Nat.mod_eq_of_lt hlt]

/-- Witness for the amended C9 at base `0x440000000000` and raw pointer `0x1234`. -/
theorem nacl_pointer_to_address_low32_witness :
    nacl_pointer_to_address 0x440000000000 0x1234 = (0x440000000000 + 0x1234) % 2 ^ 64 :=
  (nacl_pointer_to_address_low32 0x440000000000 0x1234).2.2 (by norm_num) (by norm_num)

end NaclTdep
